import Mathlib

/-!
Verification of the member-admission filter of
src/node_modules/opencascade.js/src/filter/filterMethodOrProperties.py.

The Python function filterMethodOrProperty(theClass, methodOrProperty)
inspects two libclang cursors and returns False when the candidate class
member matches one of a flat list of hard-coded exclusion rules, and True
otherwise.  The only side effect is a diagnostic line printed when a public
using-declaration is rejected.  We embed the cursor fields the function
reads, each exclusion condition, and the function itself (decision paired
with the list of printed diagnostic lines).
-/

/-- The subset of clang.cindex.AccessSpecifier values relevant here. -/
inductive AccessSpecifier where
  | INVALID
  | PUBLIC
  | PROTECTED
  | PRIVATE
  | NONE
  deriving DecidableEq, Repr

/-- The subset of clang.cindex.CursorKind values relevant here. -/
inductive CursorKind where
  | CXX_METHOD
  | FIELD_DECL
  | CONSTRUCTOR
  | CONVERSION_FUNCTION
  | USING_DECLARATION
  deriving DecidableEq, Repr

/-- The fields of the class cursor read by the filter:
theClass.spelling and theClass.type.spelling. -/
structure ClassCursor where
  spelling : String
  typeSpelling : String
  deriving DecidableEq

/-- The fields of the member cursor read by the filter:
spelling, displayname, result_type.spelling, type.spelling,
access_specifier, kind, and is_static_method(). -/
structure MemberCursor where
  spelling : String
  displayname : String
  resultTypeSpelling : String
  typeSpelling : String
  accessSpecifier : AccessSpecifier
  kind : CursorKind
  isStaticMethod : Bool
  deriving DecidableEq

/-- A candidate binding member: the pair of cursors passed to the filter. -/
structure MemberDescriptor where
  theClass : ClassCursor
  methodOrProperty : MemberCursor
  deriving DecidableEq

/-- Embedding of Python str.startswith. -/
def strStartsWith (s pre : String) : Bool :=
  pre.toList.isPrefixOf s.toList

/-- Helper for substring search over character lists. -/
def strContainsSub : List Char → List Char → Bool
  | [], pat => pat.isEmpty
  | c :: t, pat => pat.isPrefixOf (c :: t) || strContainsSub t pat

/-- Embedding of the Python substring test (pat in s). -/
def strContains (s pat : String) : Bool :=
  strContainsSub s.toList pat.toList

/-- Calling-convention mismatches: no matching function for call to object of
type std::function (source lines 13-20). -/
def ruleFunctionalCastMismatch (theClass : ClassCursor) (m : MemberCursor) : Bool :=
  (theClass.spelling == "MeshVS_DataSource" && m.spelling == "GetGeom") ||
  (theClass.spelling == "MeshVS_DataSource" && m.spelling == "GetGeomType") ||
  (theClass.spelling == "MeshVS_DeformedDataSource" && m.spelling == "GetGeom") ||
  (theClass.spelling == "MeshVS_DeformedDataSource" && m.spelling == "GetGeomType") ||
  (theClass.spelling == "Interface_STAT" && m.spelling == "Description") ||
  (theClass.spelling == "Interface_STAT" && m.spelling == "Phase")

/-- Calling a private constructor of the result class (source lines 23-36). -/
def rulePrivateConstructor (theClass : ClassCursor) (m : MemberCursor) : Bool :=
  (theClass.spelling == "VrmlData_Node" && m.spelling == "Scene") ||
  (theClass.spelling == "Font_FTFont" && m.spelling == "GlyphImage") ||
  (theClass.spelling == "LDOMString" && m.spelling == "getOwnerDocument") ||
  (theClass.spelling == "LDOM_MemManager" && m.spelling == "Self") ||
  (theClass.spelling == "Aspect_VKeySet" && m.spelling == "Mutex") ||
  (theClass.spelling == "Image_VideoRecorder" && m.spelling == "ChangeFrame") ||
  (theClass.spelling == "StdPrs_BRepFont" && m.spelling == "Mutex") ||
  (theClass.spelling == "AdvApp2Var_Network" && m.spelling == "ChangePatch") ||
  (theClass.spelling == "AdvApp2Var_Framework" && m.spelling == "IsoU") ||
  (theClass.spelling == "LDOM_Node" && m.spelling == "getOwnerDocument") ||
  (theClass.spelling == "AdvApp2Var_Network" && m.spelling == "Patch") ||
  (theClass.spelling == "AdvApp2Var_Framework" && m.spelling == "IsoV")

/-- Non-const lvalue reference cannot bind to a temporary (source lines
39-57); note the two whole-class entries Resource_Unicode and
XSControl_Vars. -/
def ruleNonConstRefTemporary (theClass : ClassCursor) (m : MemberCursor) : Bool :=
  (theClass.spelling == "Resource_Unicode") ||
  (theClass.spelling == "NCollection_DataMap" && m.spelling == "Find") ||
  (theClass.spelling == "OSD_Thread" && m.spelling == "Wait") ||
  (theClass.spelling == "TCollection_ExtendedString" && m.spelling == "ToUTF8CString") ||
  (theClass.spelling == "Message" && m.spelling == "ToOSDMetric") ||
  (theClass.spelling == "OSD" && m.spelling == "RealToCString") ||
  (theClass.spelling == "XmlObjMgt" && m.spelling == "GetInteger") ||
  (theClass.spelling == "NCollection_IndexedDataMap" && m.spelling == "FindFromKey") ||
  (theClass.spelling == "XmlObjMgt" && m.spelling == "GetReal") ||
  (theClass.spelling == "BOPAlgo_Tools" && m.spelling == "PerformCommonBlocks") ||
  (theClass.spelling == "Transfer_Finder" && m.spelling == "GetStringAttribute") ||
  (theClass.spelling == "MoniTool_TypedValue" && m.spelling == "Internals") ||
  (theClass.spelling == "MoniTool_AttrList" && m.spelling == "GetStringAttribute") ||
  (theClass.spelling == "MoniTool_CaseData" && m.spelling == "Text") ||
  (theClass.spelling == "StepData_StepReaderData" && m.spelling == "ReadEnumParam") ||
  (theClass.spelling == "XSControl_Vars") ||
  (theClass.spelling == "MeshVS_DataSource" && m.spelling == "GetGroup")

/-- static_assert failure: implicitly binding raw pointers is illegal
(source lines 61-62). -/
def ruleRawPointerStaticAssert (theClass : ClassCursor) (m : MemberCursor) : Bool :=
  theClass.spelling == "Graphic3d_GraduatedTrihedron" && m.spelling == "CubicAxesCallback"

/-- Address of bit-field requested, keyed on the class storage type
(source lines 65-66). -/
def ruleBitFieldTwoColors (theClass : ClassCursor) (_m : MemberCursor) : Bool :=
  theClass.typeSpelling == "MeshVS_TwoColors"

/-- The eight bit-field members of Graphic3d_CStructure (source lines 69-82). -/
def graphic3dCStructureBitFieldNames : List String :=
  ["IsInfinite", "stick", "highlight", "visible",
   "HLRValidation", "IsForHighlight", "IsMutable", "Is2dText"]

/-- Address of bit-field requested for Graphic3d_CStructure members
(source lines 69-82). -/
def ruleBitFieldCStructure (theClass : ClassCursor) (m : MemberCursor) : Bool :=
  theClass.spelling == "Graphic3d_CStructure" &&
    graphic3dCStructureBitFieldNames.contains m.spelling

/-- Public using-declarations are unsupported by the binding generator
(source lines 84-86); this rule is the only one with a print side effect. -/
def rulePublicUsingDeclaration (_theClass : ClassCursor) (m : MemberCursor) : Bool :=
  m.accessSpecifier == AccessSpecifier.PUBLIC && m.kind == CursorKind.USING_DECLARATION

/-- Output-stream result types and std::ifstream declared types
(source lines 88-92). -/
def ruleStreamTypes (_theClass : ClassCursor) (m : MemberCursor) : Bool :=
  strStartsWith m.resultTypeSpelling "Standard_OStream" || m.typeSpelling == "std::ifstream"

/-- Call to implicitly-deleted copy constructor of Aspect_VKeySet
(source lines 97-101). -/
def ruleDeletedCopyViewController (theClass : ClassCursor) (m : MemberCursor) : Bool :=
  theClass.spelling == "AIS_ViewController" &&
    (m.spelling == "Keys" || m.spelling == "ChangeKeys")

/-- Private copy constructor used in this function (source lines 104-105). -/
def rulePrivateCopySolidExplorer (theClass : ClassCursor) (m : MemberCursor) : Bool :=
  theClass.spelling == "BRepClass3d_SolidExplorer" && m.spelling == "GetTree"

/-- Incompatible function-pointer cast in the gp_TrsfNLerp template
specialization (source lines 110-111). -/
def ruleLerpInterpolateStatic (theClass : ClassCursor) (m : MemberCursor) : Bool :=
  theClass.spelling == "NCollection_Lerp" && m.spelling == "Interpolate" && m.isStaticMethod

/-- The two container classes whose iterator members blow up build memory
(source line 114). -/
def iteratorFilteredClasses : List String :=
  ["NCollection_Sequence", "NCollection_List"]

/-- Iterator members of the two container classes (source lines 114-115). -/
def ruleIteratorContainers (theClass : ClassCursor) (m : MemberCursor) : Bool :=
  iteratorFilteredClasses.contains theClass.spelling && strContains m.displayname "::Iterator"

/-- Undefined symbol at instantiation time (source lines 120-121). -/
def ruleUndefinedGeom2dHatchHatcherIsDone (theClass : ClassCursor) (m : MemberCursor) : Bool :=
  theClass.spelling == "Geom2dHatch_Hatcher" && m.spelling == "IsDone"

/-- Undefined symbol at instantiation time (source lines 125-126). -/
def ruleUndefinedGeom2dAPIInterpolateClearTangents (theClass : ClassCursor) (m : MemberCursor) : Bool :=
  theClass.spelling == "Geom2dAPI_Interpolate" && m.spelling == "ClearTangents"

/-- Undefined symbol at instantiation time (source lines 130-131). -/
def ruleUndefinedGeom2dGccLin2dTanOblIsParallel2 (theClass : ClassCursor) (m : MemberCursor) : Bool :=
  theClass.spelling == "Geom2dGcc_Lin2dTanObl" && m.spelling == "IsParallel2"

/-- Undefined symbol at instantiation time (source lines 135-136). -/
def ruleUndefinedGeom2dIntCurveToolIsComposite (theClass : ClassCursor) (m : MemberCursor) : Bool :=
  theClass.spelling == "Geom2dInt_Geom2dCurveTool" && m.spelling == "IsComposite"

/-- Undefined symbol at instantiation time (source lines 140-141). -/
def ruleUndefinedGeom2dIntCurveLocatorLocate (theClass : ClassCursor) (m : MemberCursor) : Bool :=
  theClass.spelling == "Geom2dInt_TheCurveLocatorOfTheProjPCurOfGInter" && m.spelling == "Locate"

/-- Undefined symbol at instantiation time (source lines 145-146). -/
def ruleUndefinedGeomIntIntSSSetTolFixTangents (theClass : ClassCursor) (m : MemberCursor) : Bool :=
  theClass.spelling == "GeomInt_IntSS" && m.spelling == "SetTolFixTangents"

/-- Undefined symbol at instantiation time (source lines 150-151). -/
def ruleUndefinedGeomIntIntSSTolFixTangents (theClass : ClassCursor) (m : MemberCursor) : Bool :=
  theClass.spelling == "GeomInt_IntSS" && m.spelling == "TolFixTangents"

/-- Undefined symbol at instantiation time (source lines 155-156). -/
def ruleUndefinedGeomAPIInterpolateClearTangents (theClass : ClassCursor) (m : MemberCursor) : Bool :=
  theClass.spelling == "GeomAPI_Interpolate" && m.spelling == "ClearTangents"

/-- Undefined symbol at instantiation time (source lines 160-161). -/
def ruleUndefinedGeomFillFunctionGuideDeriv2T (theClass : ClassCursor) (m : MemberCursor) : Bool :=
  theClass.spelling == "GeomFill_FunctionGuide" && m.spelling == "Deriv2T"

/-- Undefined symbol at instantiation time (source lines 165-166). -/
def ruleUndefinedGeomFillSweepSectionGeneratorInit (theClass : ClassCursor) (m : MemberCursor) : Bool :=
  theClass.spelling == "GeomFill_SweepSectionGenerator" && m.spelling == "Init"

/-- Undefined symbol at instantiation time (source lines 170-171). -/
def ruleUndefinedGeomIntResConstraintBezierError (theClass : ClassCursor) (m : MemberCursor) : Bool :=
  theClass.spelling == "GeomInt_ResConstraintOfMyGradientOfTheComputeLineBezierOfWLApprox" &&
    m.spelling == "Error"

/-- Undefined symbol at instantiation time (source lines 175-176). -/
def ruleUndefinedGeomIntResConstraintbisError (theClass : ClassCursor) (m : MemberCursor) : Bool :=
  theClass.spelling == "GeomInt_ResConstraintOfMyGradientbisOfTheComputeLineOfWLApprox" &&
    m.spelling == "Error"

/-- Undefined symbol at instantiation time (source lines 180-181). -/
def ruleUndefinedGeomIntWLApproxPerform (theClass : ClassCursor) (m : MemberCursor) : Bool :=
  theClass.spelling == "GeomInt_WLApprox" && m.spelling == "Perform"

/-- All exclusion conditions of the filter, in source order. -/
def denylist : List (ClassCursor → MemberCursor → Bool) :=
  [ruleFunctionalCastMismatch,
   rulePrivateConstructor,
   ruleNonConstRefTemporary,
   ruleRawPointerStaticAssert,
   ruleBitFieldTwoColors,
   ruleBitFieldCStructure,
   rulePublicUsingDeclaration,
   ruleStreamTypes,
   ruleDeletedCopyViewController,
   rulePrivateCopySolidExplorer,
   ruleLerpInterpolateStatic,
   ruleIteratorContainers,
   ruleUndefinedGeom2dHatchHatcherIsDone,
   ruleUndefinedGeom2dAPIInterpolateClearTangents,
   ruleUndefinedGeom2dGccLin2dTanOblIsParallel2,
   ruleUndefinedGeom2dIntCurveToolIsComposite,
   ruleUndefinedGeom2dIntCurveLocatorLocate,
   ruleUndefinedGeomIntIntSSSetTolFixTangents,
   ruleUndefinedGeomIntIntSSTolFixTangents,
   ruleUndefinedGeomAPIInterpolateClearTangents,
   ruleUndefinedGeomFillFunctionGuideDeriv2T,
   ruleUndefinedGeomFillSweepSectionGeneratorInit,
   ruleUndefinedGeomIntResConstraintBezierError,
   ruleUndefinedGeomIntResConstraintbisError,
   ruleUndefinedGeomIntWLApproxPerform]

/-- The exclusion conditions evaluated before the public using-declaration
rule, in source order. -/
def rulesBeforeUsingDeclaration : List (ClassCursor → MemberCursor → Bool) :=
  [ruleFunctionalCastMismatch,
   rulePrivateConstructor,
   ruleNonConstRefTemporary,
   ruleRawPointerStaticAssert,
   ruleBitFieldTwoColors,
   ruleBitFieldCStructure]

/-- The diagnostic line printed when a public using-declaration is rejected
(source line 85). -/
def usingDeclarationDiagnostic (theClass : ClassCursor) (m : MemberCursor) : String :=
  "Using declarations are not supported! (" ++ theClass.spelling ++ ", " ++ m.spelling ++ ")"

/-- Embedding of filterMethodOrProperty: the boolean decision paired with
the list of diagnostic lines printed during the call.  Each early
return False of the source becomes one branch, in source order. -/
def filterMethodOrProperty (theClass : ClassCursor) (m : MemberCursor) : Bool × List String :=
  if ruleFunctionalCastMismatch theClass m then (false, [])
  else if rulePrivateConstructor theClass m then (false, [])
  else if ruleNonConstRefTemporary theClass m then (false, [])
  else if ruleRawPointerStaticAssert theClass m then (false, [])
  else if ruleBitFieldTwoColors theClass m then (false, [])
  else if ruleBitFieldCStructure theClass m then (false, [])
  else if rulePublicUsingDeclaration theClass m then
    (false, [usingDeclarationDiagnostic theClass m])
  else if ruleStreamTypes theClass m then (false, [])
  else if ruleDeletedCopyViewController theClass m then (false, [])
  else if rulePrivateCopySolidExplorer theClass m then (false, [])
  else if ruleLerpInterpolateStatic theClass m then (false, [])
  else if ruleIteratorContainers theClass m then (false, [])
  else if ruleUndefinedGeom2dHatchHatcherIsDone theClass m then (false, [])
  else if ruleUndefinedGeom2dAPIInterpolateClearTangents theClass m then (false, [])
  else if ruleUndefinedGeom2dGccLin2dTanOblIsParallel2 theClass m then (false, [])
  else if ruleUndefinedGeom2dIntCurveToolIsComposite theClass m then (false, [])
  else if ruleUndefinedGeom2dIntCurveLocatorLocate theClass m then (false, [])
  else if ruleUndefinedGeomIntIntSSSetTolFixTangents theClass m then (false, [])
  else if ruleUndefinedGeomIntIntSSTolFixTangents theClass m then (false, [])
  else if ruleUndefinedGeomAPIInterpolateClearTangents theClass m then (false, [])
  else if ruleUndefinedGeomFillFunctionGuideDeriv2T theClass m then (false, [])
  else if ruleUndefinedGeomFillSweepSectionGeneratorInit theClass m then (false, [])
  else if ruleUndefinedGeomIntResConstraintBezierError theClass m then (false, [])
  else if ruleUndefinedGeomIntResConstraintbisError theClass m then (false, [])
  else if ruleUndefinedGeomIntWLApproxPerform theClass m then (false, [])
  else (true, [])

/-- The admission decision of the spec: the boolean component of the filter. -/
def admitMember (d : MemberDescriptor) : Bool :=
  (filterMethodOrProperty d.theClass d.methodOrProperty).1

/-- The diagnostic lines printed during one call of the filter. -/
def diagnostics (d : MemberDescriptor) : List String :=
  (filterMethodOrProperty d.theClass d.methodOrProperty).2

/-- Admission computed from an arbitrary rule list: reject when any rule
matches, admitMember otherwise. -/
def admitVia (rs : List (ClassCursor → MemberCursor → Bool)) (d : MemberDescriptor) : Bool :=
  !(rs.any (fun r => r d.theClass d.methodOrProperty))

/-- A sequence of independent filter calls: the list of decisions paired
with the concatenated diagnostic output, in call order. -/
def runFilter : List MemberDescriptor → List Bool × List String
  | [] => ([], [])
  | d :: rest =>
      let r := runFilter rest
      (admitMember d :: r.1, diagnostics d ++ r.2)

/-- The exact (class, member) pairs of the literal-pair rule categories:
calling-convention mismatches, private constructors, non-const reference
to temporary (pairs only), the raw-pointer static_assert, deleted/private
copy constructors, and the undefined-symbol list, in source order. -/
def exactPairs : List (String × String) :=
  [("MeshVS_DataSource", "GetGeom"),
   ("MeshVS_DataSource", "GetGeomType"),
   ("MeshVS_DeformedDataSource", "GetGeom"),
   ("MeshVS_DeformedDataSource", "GetGeomType"),
   ("Interface_STAT", "Description"),
   ("Interface_STAT", "Phase"),
   ("VrmlData_Node", "Scene"),
   ("Font_FTFont", "GlyphImage"),
   ("LDOMString", "getOwnerDocument"),
   ("LDOM_MemManager", "Self"),
   ("Aspect_VKeySet", "Mutex"),
   ("Image_VideoRecorder", "ChangeFrame"),
   ("StdPrs_BRepFont", "Mutex"),
   ("AdvApp2Var_Network", "ChangePatch"),
   ("AdvApp2Var_Framework", "IsoU"),
   ("LDOM_Node", "getOwnerDocument"),
   ("AdvApp2Var_Network", "Patch"),
   ("AdvApp2Var_Framework", "IsoV"),
   ("NCollection_DataMap", "Find"),
   ("OSD_Thread", "Wait"),
   ("TCollection_ExtendedString", "ToUTF8CString"),
   ("Message", "ToOSDMetric"),
   ("OSD", "RealToCString"),
   ("XmlObjMgt", "GetInteger"),
   ("NCollection_IndexedDataMap", "FindFromKey"),
   ("XmlObjMgt", "GetReal"),
   ("BOPAlgo_Tools", "PerformCommonBlocks"),
   ("Transfer_Finder", "GetStringAttribute"),
   ("MoniTool_TypedValue", "Internals"),
   ("MoniTool_AttrList", "GetStringAttribute"),
   ("MoniTool_CaseData", "Text"),
   ("StepData_StepReaderData", "ReadEnumParam"),
   ("MeshVS_DataSource", "GetGroup"),
   ("Graphic3d_GraduatedTrihedron", "CubicAxesCallback"),
   ("AIS_ViewController", "Keys"),
   ("AIS_ViewController", "ChangeKeys"),
   ("BRepClass3d_SolidExplorer", "GetTree"),
   ("Geom2dHatch_Hatcher", "IsDone"),
   ("Geom2dAPI_Interpolate", "ClearTangents"),
   ("Geom2dGcc_Lin2dTanObl", "IsParallel2"),
   ("Geom2dInt_Geom2dCurveTool", "IsComposite"),
   ("Geom2dInt_TheCurveLocatorOfTheProjPCurOfGInter", "Locate"),
   ("GeomInt_IntSS", "SetTolFixTangents"),
   ("GeomInt_IntSS", "TolFixTangents"),
   ("GeomAPI_Interpolate", "ClearTangents"),
   ("GeomFill_FunctionGuide", "Deriv2T"),
   ("GeomFill_SweepSectionGenerator", "Init"),
   ("GeomInt_ResConstraintOfMyGradientOfTheComputeLineBezierOfWLApprox", "Error"),
   ("GeomInt_ResConstraintOfMyGradientbisOfTheComputeLineOfWLApprox", "Error"),
   ("GeomInt_WLApprox", "Perform")]

theorem fst_ite_denial (b : Bool) (l : List String) (p : Bool × List String) :
    (if b = true then ((false : Bool), l) else p).1 = (!b && p.1) := by
  cases b <;> simp

/-- The filter decision equals the complement of the disjunction of all
exclusion conditions: this is the bridge between the if-chain and the rule
list. -/
theorem admit_eq_not_any (d : MemberDescriptor) :
    admitMember d = !(denylist.any (fun r => r d.theClass d.methodOrProperty)) := by
  unfold admitMember filterMethodOrProperty denylist
  simp only [fst_ite_denial, List.any_cons, List.any_nil, Bool.not_or, Bool.or_false,
    Bool.and_true, Bool.not_false]

theorem admit_false_of_rule (d : MemberDescriptor) (r : ClassCursor → MemberCursor → Bool)
    (hr : r ∈ denylist) (h : r d.theClass d.methodOrProperty = true) : admitMember d = false := by
  rw [admit_eq_not_any]
  have hany : denylist.any (fun r => r d.theClass d.methodOrProperty) = true :=
    List.any_eq_true.mpr ⟨r, hr, h⟩
  rw [hany]
  rfl

theorem admit_true_of_all_rules_false (d : MemberDescriptor)
    (h : ∀ r ∈ denylist, r d.theClass d.methodOrProperty = false) : admitMember d = true := by
  rw [admit_eq_not_any]
  have hany : denylist.any (fun r => r d.theClass d.methodOrProperty) = false :=
    List.any_eq_false.mpr (fun r hr => by simp [h r hr])
  rw [hany]
  rfl

theorem mem_ruleFunctionalCastMismatch : ruleFunctionalCastMismatch ∈ denylist := by
  simp [denylist]

theorem mem_rulePrivateConstructor : rulePrivateConstructor ∈ denylist := by
  simp [denylist]

theorem mem_ruleNonConstRefTemporary : ruleNonConstRefTemporary ∈ denylist := by
  simp [denylist]

theorem mem_ruleRawPointerStaticAssert : ruleRawPointerStaticAssert ∈ denylist := by
  simp [denylist]

theorem mem_ruleBitFieldTwoColors : ruleBitFieldTwoColors ∈ denylist := by
  simp [denylist]

theorem mem_ruleBitFieldCStructure : ruleBitFieldCStructure ∈ denylist := by
  simp [denylist]

theorem mem_rulePublicUsingDeclaration : rulePublicUsingDeclaration ∈ denylist := by
  simp [denylist]

theorem mem_ruleStreamTypes : ruleStreamTypes ∈ denylist := by
  simp [denylist]

theorem mem_ruleDeletedCopyViewController : ruleDeletedCopyViewController ∈ denylist := by
  simp [denylist]

theorem mem_rulePrivateCopySolidExplorer : rulePrivateCopySolidExplorer ∈ denylist := by
  simp [denylist]

theorem mem_ruleLerpInterpolateStatic : ruleLerpInterpolateStatic ∈ denylist := by
  simp [denylist]

theorem mem_ruleIteratorContainers : ruleIteratorContainers ∈ denylist := by
  simp [denylist]

theorem mem_ruleUndefinedGeom2dHatchHatcherIsDone :
    ruleUndefinedGeom2dHatchHatcherIsDone ∈ denylist := by
  simp [denylist]

theorem mem_ruleUndefinedGeom2dAPIInterpolateClearTangents :
    ruleUndefinedGeom2dAPIInterpolateClearTangents ∈ denylist := by
  simp [denylist]

theorem mem_ruleUndefinedGeom2dGccLin2dTanOblIsParallel2 :
    ruleUndefinedGeom2dGccLin2dTanOblIsParallel2 ∈ denylist := by
  simp [denylist]

theorem mem_ruleUndefinedGeom2dIntCurveToolIsComposite :
    ruleUndefinedGeom2dIntCurveToolIsComposite ∈ denylist := by
  simp [denylist]

theorem mem_ruleUndefinedGeom2dIntCurveLocatorLocate :
    ruleUndefinedGeom2dIntCurveLocatorLocate ∈ denylist := by
  simp [denylist]

theorem mem_ruleUndefinedGeomIntIntSSSetTolFixTangents :
    ruleUndefinedGeomIntIntSSSetTolFixTangents ∈ denylist := by
  simp [denylist]

theorem mem_ruleUndefinedGeomIntIntSSTolFixTangents :
    ruleUndefinedGeomIntIntSSTolFixTangents ∈ denylist := by
  simp [denylist]

theorem mem_ruleUndefinedGeomAPIInterpolateClearTangents :
    ruleUndefinedGeomAPIInterpolateClearTangents ∈ denylist := by
  simp [denylist]

theorem mem_ruleUndefinedGeomFillFunctionGuideDeriv2T :
    ruleUndefinedGeomFillFunctionGuideDeriv2T ∈ denylist := by
  simp [denylist]

theorem mem_ruleUndefinedGeomFillSweepSectionGeneratorInit :
    ruleUndefinedGeomFillSweepSectionGeneratorInit ∈ denylist := by
  simp [denylist]

theorem mem_ruleUndefinedGeomIntResConstraintBezierError :
    ruleUndefinedGeomIntResConstraintBezierError ∈ denylist := by
  simp [denylist]

theorem mem_ruleUndefinedGeomIntResConstraintbisError :
    ruleUndefinedGeomIntResConstraintbisError ∈ denylist := by
  simp [denylist]

theorem mem_ruleUndefinedGeomIntWLApproxPerform :
    ruleUndefinedGeomIntWLApproxPerform ∈ denylist := by
  simp [denylist]

/-- The diagnostic output is empty whenever the descriptor is not a public
using-declaration, whichever rule (if any) decides the exclusion. -/
theorem diagnostics_eq_nil_of_not_using (d : MemberDescriptor)
    (h : rulePublicUsingDeclaration d.theClass d.methodOrProperty = false) :
    diagnostics d = [] := by
  unfold diagnostics filterMethodOrProperty
  simp [h, apply_ite Prod.snd, ite_self]

def fooBarDescriptor : MemberDescriptor :=
  ⟨⟨"Foo", "Foo"⟩,
   ⟨"Bar", "Bar()", "void", "void ()", AccessSpecifier.PUBLIC, CursorKind.CXX_METHOD, false⟩⟩

/-- C1: default-admitMember (fail-open): every MemberDescriptor matching none of
the exclusion rules is admitted. -/
theorem claim_C1_default_admit (d : MemberDescriptor)
    (h : ∀ r ∈ denylist, r d.theClass d.methodOrProperty = false) : admitMember d = true :=
  admit_true_of_all_rules_false d h

/-- C1 witness: the descriptor with class Foo and member Bar matches no rule
and is admitted. -/
theorem claim_C1_default_admit_witness :
    (∀ r ∈ denylist, r fooBarDescriptor.theClass fooBarDescriptor.methodOrProperty = false) ∧
    admitMember fooBarDescriptor = true :=
  ⟨by decide, claim_C1_default_admit fooBarDescriptor (by decide)⟩

def c7StreamDescriptor : MemberDescriptor :=
  ⟨⟨"Standard_Dump", "Standard_Dump"⟩,
   ⟨"Sentry", "Sentry()", "Standard_OStream &", "Standard_OStream &()",
    AccessSpecifier.PUBLIC, CursorKind.CXX_METHOD, false⟩⟩

def c7IfstreamDescriptor : MemberDescriptor :=
  ⟨⟨"OSD_FileNode", "OSD_FileNode"⟩,
   ⟨"myStream", "myStream", "std::ifstream", "std::ifstream",
    AccessSpecifier.PRIVATE, CursorKind.FIELD_DECL, false⟩⟩

/-- C7: every member whose result type name begins with Standard_OStream or
whose declared type is std::ifstream is excluded, whatever the class and
member names. -/
theorem claim_C7_stream_types (d : MemberDescriptor)
    (h : strStartsWith d.methodOrProperty.resultTypeSpelling "Standard_OStream" = true ∨
         d.methodOrProperty.typeSpelling = "std::ifstream") :
    admitMember d = false := by
  refine admit_false_of_rule d ruleStreamTypes mem_ruleStreamTypes ?_
  simp only [ruleStreamTypes]
  rcases h with h | h
  · rw [h]
    simp
  · rw [h]
    simp

/-- C7 witness: a Standard_OStream-returning member and a std::ifstream
field are both excluded. -/
theorem claim_C7_stream_types_witness :
    (strStartsWith c7StreamDescriptor.methodOrProperty.resultTypeSpelling
       "Standard_OStream" = true ∧ admitMember c7StreamDescriptor = false) ∧
    (c7IfstreamDescriptor.methodOrProperty.typeSpelling = "std::ifstream" ∧
       admitMember c7IfstreamDescriptor = false) :=
  ⟨⟨by decide, claim_C7_stream_types c7StreamDescriptor (Or.inl (by decide))⟩,
   ⟨rfl, claim_C7_stream_types c7IfstreamDescriptor (Or.inr rfl)⟩⟩

/-- C8: two successive calls on an identical descriptor return the same
boolean and each call contributes its diagnostic output independently, with
no suppression of repeats. -/
theorem claim_C8_idempotent_stateless (d : MemberDescriptor) :
    runFilter [d, d] = ([admitMember d, admitMember d], diagnostics d ++ diagnostics d) := by
  simp [runFilter]

/-- C9: the filter is total and deterministic on every well-formed
descriptor, and its only output beyond the decision is the optional
using-declaration diagnostic. -/
theorem claim_C9_total_pure (d : MemberDescriptor) :
    (admitMember d = true ∨ admitMember d = false) ∧
    (diagnostics d = [] ∨
     diagnostics d = [usingDeclarationDiagnostic d.theClass d.methodOrProperty]) := by
  constructor
  · cases h : admitMember d
    · exact Or.inr rfl
    · exact Or.inl rfl
  · cases hu : rulePublicUsingDeclaration d.theClass d.methodOrProperty
    · exact Or.inl (diagnostics_eq_nil_of_not_using d hu)
    · cases h1 : ruleFunctionalCastMismatch d.theClass d.methodOrProperty
      · cases h2 : rulePrivateConstructor d.theClass d.methodOrProperty
        · cases h3 : ruleNonConstRefTemporary d.theClass d.methodOrProperty
          · cases h4 : ruleRawPointerStaticAssert d.theClass d.methodOrProperty
            · cases h5 : ruleBitFieldTwoColors d.theClass d.methodOrProperty
              · cases h6 : ruleBitFieldCStructure d.theClass d.methodOrProperty
                · exact Or.inr
                    (by unfold diagnostics filterMethodOrProperty; simp [h1, h2, h3, h4, h5, h6, hu])
                · exact Or.inl
                    (by unfold diagnostics filterMethodOrProperty; simp [h1, h2, h3, h4, h5, h6])
              · exact Or.inl
                  (by unfold diagnostics filterMethodOrProperty; simp [h1, h2, h3, h4, h5])
            · exact Or.inl (by unfold diagnostics filterMethodOrProperty; simp [h1, h2, h3, h4])
          · exact Or.inl (by unfold diagnostics filterMethodOrProperty; simp [h1, h2, h3])
        · exact Or.inl (by unfold diagnostics filterMethodOrProperty; simp [h1, h2])
      · exact Or.inl (by unfold diagnostics filterMethodOrProperty; simp [h1])

def c10UnicodeDescriptor : MemberDescriptor :=
  ⟨⟨"Resource_Unicode", "Resource_Unicode"⟩,
   ⟨"ConvertFormatToUnicode", "ConvertFormatToUnicode()", "void", "void ()",
    AccessSpecifier.PUBLIC, CursorKind.CXX_METHOD, true⟩⟩

/-- C10: every member of Resource_Unicode and every member of XSControl_Vars
is excluded, regardless of member name, through the whole-class entries of
the non-const-reference category. -/
theorem claim_C10_whole_class_exclusions (d : MemberDescriptor)
    (h : d.theClass.spelling = "Resource_Unicode" ∨ d.theClass.spelling = "XSControl_Vars") :
    admitMember d = false := by
  refine admit_false_of_rule d ruleNonConstRefTemporary mem_ruleNonConstRefTemporary ?_
  simp only [ruleNonConstRefTemporary]
  rcases h with h | h <;> rw [h] <;> simp

/-- C10 witness: a Resource_Unicode member with a name appearing in no exact
pair is excluded. -/
theorem claim_C10_whole_class_exclusions_witness :
    c10UnicodeDescriptor.theClass.spelling = "Resource_Unicode" ∧
    admitMember c10UnicodeDescriptor = false :=
  ⟨rfl, claim_C10_whole_class_exclusions c10UnicodeDescriptor (Or.inl rfl)⟩

def c3OverlapDescriptor : MemberDescriptor :=
  ⟨⟨"Resource_Unicode", "Resource_Unicode"⟩,
   ⟨"ConvertUnicodeToFormat", "ConvertUnicodeToFormat", "void", "void",
    AccessSpecifier.PUBLIC, CursorKind.USING_DECLARATION, false⟩⟩

/-- C3 counterexample: a public using-declaration member of the whole-class
entry Resource_Unicode matches both the non-const-reference rule and the
using-declaration rule, so exactly two of the exclusion rules fire on the
same descriptor and the rules are not mutually exclusive. -/
theorem claim_C3_counterexample :
    ruleNonConstRefTemporary c3OverlapDescriptor.theClass
      c3OverlapDescriptor.methodOrProperty = true ∧
    rulePublicUsingDeclaration c3OverlapDescriptor.theClass
      c3OverlapDescriptor.methodOrProperty = true ∧
    denylist.countP
      (fun r => r c3OverlapDescriptor.theClass c3OverlapDescriptor.methodOrProperty) = 2 := by
  decide

/-- C3 amended: the rules are not mutually exclusive, but since every rule
unconditionally rejects, the boolean admission result is unchanged under any
reordering of the rule list. -/
theorem claim_C3_amended_reorder_invariant (l : List (ClassCursor → MemberCursor → Bool))
    (h : List.Perm denylist l) (d : MemberDescriptor) : admitVia l d = admitMember d := by
  rw [admit_eq_not_any]
  unfold admitVia
  congr 1
  cases hl : l.any (fun r => r d.theClass d.methodOrProperty)
  · cases hr : denylist.any (fun r => r d.theClass d.methodOrProperty)
    · rfl
    · exfalso
      obtain ⟨r, hrm, hrt⟩ := List.any_eq_true.mp hr
      have hx : l.any (fun r => r d.theClass d.methodOrProperty) = true :=
        List.any_eq_true.mpr ⟨r, h.mem_iff.mp hrm, hrt⟩
      simp [hx] at hl
  · cases hr : denylist.any (fun r => r d.theClass d.methodOrProperty)
    · exfalso
      obtain ⟨r, hrm, hrt⟩ := List.any_eq_true.mp hl
      have hx : denylist.any (fun r => r d.theClass d.methodOrProperty) = true :=
        List.any_eq_true.mpr ⟨r, h.mem_iff.mpr hrm, hrt⟩
      simp [hx] at hr
    · rfl

def c3PermDescriptor : MemberDescriptor :=
  ⟨⟨"Geom2dHatch_Hatcher", "Geom2dHatch_Hatcher"⟩,
   ⟨"IsDone", "IsDone()", "Standard_Boolean", "Standard_Boolean ()",
    AccessSpecifier.PUBLIC, CursorKind.CXX_METHOD, false⟩⟩

/-- C3 witness: evaluating the rules in reversed order yields the same
admission decision on a concrete descriptor. -/
theorem claim_C3_amended_reorder_invariant_witness :
    admitVia denylist.reverse c3PermDescriptor = admitMember c3PermDescriptor :=
  claim_C3_amended_reorder_invariant denylist.reverse
    (List.reverse_perm denylist).symm c3PermDescriptor

def c4UsingDescriptor : MemberDescriptor :=
  ⟨⟨"NCollection_Sequence", "NCollection_Sequence<int>"⟩,
   ⟨"Append", "Append", "void", "void",
    AccessSpecifier.PUBLIC, CursorKind.USING_DECLARATION, false⟩⟩

/-- C4 counterexample: a member of NCollection_Sequence whose display
signature does not contain the iterator marker is still excluded, because it
is a public using-declaration; so the no-marker half of the claim fails. -/
theorem claim_C4_counterexample :
    iteratorFilteredClasses.contains c4UsingDescriptor.theClass.spelling = true ∧
    strContains c4UsingDescriptor.methodOrProperty.displayname "::Iterator" = false ∧
    admitMember c4UsingDescriptor = false := by
  decide

/-- C4 amended: for members of the two container classes, a display
signature containing the iterator marker forces exclusion; a member of those
classes without the marker is admitted provided it matches no other
exclusion rule. -/
theorem claim_C4_amended_iterator_members (d : MemberDescriptor)
    (hc : iteratorFilteredClasses.contains d.theClass.spelling = true) :
    (strContains d.methodOrProperty.displayname "::Iterator" = true → admitMember d = false) ∧
    ((∀ r ∈ denylist, r d.theClass d.methodOrProperty = false) → admitMember d = true) := by
  constructor
  · intro hm
    refine admit_false_of_rule d ruleIteratorContainers mem_ruleIteratorContainers ?_
    simp only [ruleIteratorContainers]
    rw [hc, hm]
    rfl
  · exact admit_true_of_all_rules_false d

def c4IteratorDescriptor : MemberDescriptor :=
  ⟨⟨"NCollection_Sequence", "NCollection_Sequence<int>"⟩,
   ⟨"ChangeValue", "ChangeValue(NCollection_Sequence<int>::Iterator &)", "int &", "int &(...)",
    AccessSpecifier.PUBLIC, CursorKind.CXX_METHOD, false⟩⟩

def c4PlainDescriptor : MemberDescriptor :=
  ⟨⟨"NCollection_List", "NCollection_List<int>"⟩,
   ⟨"Size", "Size()", "Standard_Integer", "Standard_Integer ()",
    AccessSpecifier.PUBLIC, CursorKind.CXX_METHOD, false⟩⟩

/-- C4 witness: an iterator-signature member of NCollection_Sequence is
excluded and a plain member of NCollection_List is admitted. -/
theorem claim_C4_amended_iterator_members_witness :
    admitMember c4IteratorDescriptor = false ∧ admitMember c4PlainDescriptor = true :=
  ⟨(claim_C4_amended_iterator_members c4IteratorDescriptor (by decide)).1 (by decide),
   (claim_C4_amended_iterator_members c4PlainDescriptor (by decide)).2 (by decide)⟩

def c5UsingDescriptor : MemberDescriptor :=
  ⟨⟨"Graphic3d_CStructure", "Graphic3d_CStructure"⟩,
   ⟨"updateLayerTransformation", "updateLayerTransformation", "void", "void",
    AccessSpecifier.PUBLIC, CursorKind.USING_DECLARATION, false⟩⟩

/-- C5 counterexample: a Graphic3d_CStructure member whose name is not among
the eight bit-field names is still excluded, because it is a public
using-declaration; so the only-those-names half of the claim fails. -/
theorem claim_C5_counterexample :
    c5UsingDescriptor.theClass.spelling = "Graphic3d_CStructure" ∧
    graphic3dCStructureBitFieldNames.contains
      c5UsingDescriptor.methodOrProperty.spelling = false ∧
    admitMember c5UsingDescriptor = false := by
  decide

/-- C5 amended: every member of a class whose storage type is
MeshVS_TwoColors is excluded; a Graphic3d_CStructure member with one of the
eight bit-field names is excluded; a Graphic3d_CStructure member with any
other name is admitted provided it matches no other exclusion rule. -/
theorem claim_C5_amended_bitfields (d : MemberDescriptor) :
    (d.theClass.typeSpelling = "MeshVS_TwoColors" → admitMember d = false) ∧
    (d.theClass.spelling = "Graphic3d_CStructure" →
      graphic3dCStructureBitFieldNames.contains d.methodOrProperty.spelling = true →
        admitMember d = false) ∧
    (d.theClass.spelling = "Graphic3d_CStructure" →
      graphic3dCStructureBitFieldNames.contains d.methodOrProperty.spelling = false →
      (∀ r ∈ denylist, r d.theClass d.methodOrProperty = false) → admitMember d = true) := by
  refine ⟨fun h => ?_, fun h1 h2 => ?_, fun _ _ h => admit_true_of_all_rules_false d h⟩
  · refine admit_false_of_rule d ruleBitFieldTwoColors mem_ruleBitFieldTwoColors ?_
    simp only [ruleBitFieldTwoColors]
    rw [h]
    decide
  · refine admit_false_of_rule d ruleBitFieldCStructure mem_ruleBitFieldCStructure ?_
    simp only [ruleBitFieldCStructure]
    rw [h1, h2]
    decide

def c5TwoColorsDescriptor : MemberDescriptor :=
  ⟨⟨"MeshVS_TwoColors", "MeshVS_TwoColors"⟩,
   ⟨"myUpper", "myUpper", "unsigned int", "unsigned int",
    AccessSpecifier.PUBLIC, CursorKind.FIELD_DECL, false⟩⟩

def c5StickDescriptor : MemberDescriptor :=
  ⟨⟨"Graphic3d_CStructure", "Graphic3d_CStructure"⟩,
   ⟨"stick", "stick", "unsigned int", "unsigned int",
    AccessSpecifier.PUBLIC, CursorKind.FIELD_DECL, false⟩⟩

def c5CleanDescriptor : MemberDescriptor :=
  ⟨⟨"Graphic3d_CStructure", "Graphic3d_CStructure"⟩,
   ⟨"SetZLayer", "SetZLayer(int)", "void", "void (int)",
    AccessSpecifier.PUBLIC, CursorKind.CXX_METHOD, false⟩⟩

/-- C5 witness: a MeshVS_TwoColors field and the stick bit-field are
excluded, a plain Graphic3d_CStructure method is admitted. -/
theorem claim_C5_amended_bitfields_witness :
    admitMember c5TwoColorsDescriptor = false ∧ admitMember c5StickDescriptor = false ∧
    admitMember c5CleanDescriptor = true :=
  ⟨(claim_C5_amended_bitfields c5TwoColorsDescriptor).1 rfl,
   (claim_C5_amended_bitfields c5StickDescriptor).2.1 rfl (by decide),
   (claim_C5_amended_bitfields c5CleanDescriptor).2.2 rfl (by decide) (by decide)⟩

def c6ShadowedUsingDescriptor : MemberDescriptor :=
  ⟨⟨"Resource_Unicode", "Resource_Unicode"⟩,
   ⟨"SetFormat", "SetFormat", "void", "void",
    AccessSpecifier.PUBLIC, CursorKind.USING_DECLARATION, false⟩⟩

/-- C6 counterexample: a public using-declaration member of Resource_Unicode
is rejected by the earlier whole-class non-const-reference entry, so the
call prints no diagnostic at all instead of exactly one line. -/
theorem claim_C6_counterexample :
    c6ShadowedUsingDescriptor.methodOrProperty.accessSpecifier = AccessSpecifier.PUBLIC ∧
    c6ShadowedUsingDescriptor.methodOrProperty.kind = CursorKind.USING_DECLARATION ∧
    admitMember c6ShadowedUsingDescriptor = false ∧
    diagnostics c6ShadowedUsingDescriptor = [] := by
  decide

/-- C6 amended: every public using-declaration member is excluded; the
diagnostic naming the class and member is printed exactly once provided no
rule evaluated before the using-declaration rule matches; and a descriptor
that is not a public using-declaration never produces diagnostic output. -/
theorem claim_C6_amended_using_diag (d : MemberDescriptor) :
    (d.methodOrProperty.accessSpecifier = AccessSpecifier.PUBLIC ∧
       d.methodOrProperty.kind = CursorKind.USING_DECLARATION → admitMember d = false) ∧
    (d.methodOrProperty.accessSpecifier = AccessSpecifier.PUBLIC ∧
       d.methodOrProperty.kind = CursorKind.USING_DECLARATION →
     (∀ r ∈ rulesBeforeUsingDeclaration, r d.theClass d.methodOrProperty = false) →
       diagnostics d = [usingDeclarationDiagnostic d.theClass d.methodOrProperty]) ∧
    (¬(d.methodOrProperty.accessSpecifier = AccessSpecifier.PUBLIC ∧
       d.methodOrProperty.kind = CursorKind.USING_DECLARATION) →
       diagnostics d = []) := by
  refine ⟨fun h => ?_, fun h hpre => ?_, fun h => ?_⟩
  · refine admit_false_of_rule d rulePublicUsingDeclaration mem_rulePublicUsingDeclaration ?_
    simp only [rulePublicUsingDeclaration]
    rw [h.1, h.2]
    decide
  · have h1 := hpre ruleFunctionalCastMismatch (by simp [rulesBeforeUsingDeclaration])
    have h2 := hpre rulePrivateConstructor (by simp [rulesBeforeUsingDeclaration])
    have h3 := hpre ruleNonConstRefTemporary (by simp [rulesBeforeUsingDeclaration])
    have h4 := hpre ruleRawPointerStaticAssert (by simp [rulesBeforeUsingDeclaration])
    have h5 := hpre ruleBitFieldTwoColors (by simp [rulesBeforeUsingDeclaration])
    have h6 := hpre ruleBitFieldCStructure (by simp [rulesBeforeUsingDeclaration])
    have hu : rulePublicUsingDeclaration d.theClass d.methodOrProperty = true := by
      simp only [rulePublicUsingDeclaration]
      rw [h.1, h.2]
      decide
    unfold diagnostics filterMethodOrProperty
    simp [h1, h2, h3, h4, h5, h6, hu]
  · have hu : rulePublicUsingDeclaration d.theClass d.methodOrProperty = false := by
      cases hval : rulePublicUsingDeclaration d.theClass d.methodOrProperty
      · rfl
      · exfalso
        apply h
        simp only [rulePublicUsingDeclaration, Bool.and_eq_true, beq_iff_eq] at hval
        exact hval
    exact diagnostics_eq_nil_of_not_using d hu

def c6UsingDescriptor : MemberDescriptor :=
  ⟨⟨"BRepAlgoAPI_BooleanOperation", "BRepAlgoAPI_BooleanOperation"⟩,
   ⟨"SetRunParallel", "SetRunParallel", "void", "void",
    AccessSpecifier.PUBLIC, CursorKind.USING_DECLARATION, false⟩⟩

def c6SilentDescriptor : MemberDescriptor :=
  ⟨⟨"MeshVS_DataSource", "MeshVS_DataSource"⟩,
   ⟨"GetGeom", "GetGeom(...)", "Standard_Boolean", "Standard_Boolean (...)",
    AccessSpecifier.PUBLIC, CursorKind.CXX_METHOD, false⟩⟩

/-- C6 witness: an unshadowed public using-declaration is excluded with
exactly one diagnostic, and an exclusion by another rule is silent. -/
theorem claim_C6_amended_using_diag_witness :
    admitMember c6UsingDescriptor = false ∧
    diagnostics c6UsingDescriptor =
      [usingDeclarationDiagnostic c6UsingDescriptor.theClass
         c6UsingDescriptor.methodOrProperty] ∧
    diagnostics c6SilentDescriptor = [] :=
  ⟨(claim_C6_amended_using_diag c6UsingDescriptor).1 ⟨rfl, rfl⟩,
   (claim_C6_amended_using_diag c6UsingDescriptor).2.1 ⟨rfl, rfl⟩ (by decide),
   (claim_C6_amended_using_diag c6SilentDescriptor).2.2 (by decide)⟩

/-- C2: every literal (class, member) pair of the exact-pair rule categories
is excluded whenever the descriptor carries exactly those class and member
names; the NCollection_Lerp Interpolate case additionally requires the
member to be a static method. -/
theorem claim_C2_exact_pairs (d : MemberDescriptor)
    (h : (d.theClass.spelling, d.methodOrProperty.spelling) ∈ exactPairs ∨
         (d.theClass.spelling = "NCollection_Lerp" ∧
          d.methodOrProperty.spelling = "Interpolate" ∧
          d.methodOrProperty.isStaticMethod = true)) :
    admitMember d = false := by
  rcases h with hp | ⟨h1, h2, h3⟩
  · simp only [exactPairs, List.mem_cons, List.not_mem_nil, or_false, Prod.mk.injEq] at hp
    rcases hp with ⟨h1, h2⟩ | ⟨h1, h2⟩ | ⟨h1, h2⟩ | ⟨h1, h2⟩ | ⟨h1, h2⟩ | ⟨h1, h2⟩ |
      ⟨h1, h2⟩ | ⟨h1, h2⟩ | ⟨h1, h2⟩ | ⟨h1, h2⟩ | ⟨h1, h2⟩ | ⟨h1, h2⟩ |
      ⟨h1, h2⟩ | ⟨h1, h2⟩ | ⟨h1, h2⟩ | ⟨h1, h2⟩ | ⟨h1, h2⟩ | ⟨h1, h2⟩ |
      ⟨h1, h2⟩ | ⟨h1, h2⟩ | ⟨h1, h2⟩ | ⟨h1, h2⟩ | ⟨h1, h2⟩ | ⟨h1, h2⟩ |
      ⟨h1, h2⟩ | ⟨h1, h2⟩ | ⟨h1, h2⟩ | ⟨h1, h2⟩ | ⟨h1, h2⟩ | ⟨h1, h2⟩ |
      ⟨h1, h2⟩ | ⟨h1, h2⟩ | ⟨h1, h2⟩ | ⟨h1, h2⟩ | ⟨h1, h2⟩ | ⟨h1, h2⟩ |
      ⟨h1, h2⟩ | ⟨h1, h2⟩ | ⟨h1, h2⟩ | ⟨h1, h2⟩ | ⟨h1, h2⟩ | ⟨h1, h2⟩ |
      ⟨h1, h2⟩ | ⟨h1, h2⟩ | ⟨h1, h2⟩ | ⟨h1, h2⟩ | ⟨h1, h2⟩ | ⟨h1, h2⟩ |
      ⟨h1, h2⟩ | ⟨h1, h2⟩
    all_goals first
      | exact admit_false_of_rule d ruleFunctionalCastMismatch
          mem_ruleFunctionalCastMismatch
          (by simp only [ruleFunctionalCastMismatch]; rw [h1, h2]; decide)
      | exact admit_false_of_rule d rulePrivateConstructor
          mem_rulePrivateConstructor
          (by simp only [rulePrivateConstructor]; rw [h1, h2]; decide)
      | exact admit_false_of_rule d ruleNonConstRefTemporary
          mem_ruleNonConstRefTemporary
          (by simp only [ruleNonConstRefTemporary]; rw [h1, h2]; decide)
      | exact admit_false_of_rule d ruleRawPointerStaticAssert
          mem_ruleRawPointerStaticAssert
          (by simp only [ruleRawPointerStaticAssert]; rw [h1, h2]; decide)
      | exact admit_false_of_rule d ruleDeletedCopyViewController
          mem_ruleDeletedCopyViewController
          (by simp only [ruleDeletedCopyViewController]; rw [h1, h2]; decide)
      | exact admit_false_of_rule d rulePrivateCopySolidExplorer
          mem_rulePrivateCopySolidExplorer
          (by simp only [rulePrivateCopySolidExplorer]; rw [h1, h2]; decide)
      | exact admit_false_of_rule d ruleUndefinedGeom2dHatchHatcherIsDone
          mem_ruleUndefinedGeom2dHatchHatcherIsDone
          (by simp only [ruleUndefinedGeom2dHatchHatcherIsDone]; rw [h1, h2]; decide)
      | exact admit_false_of_rule d ruleUndefinedGeom2dAPIInterpolateClearTangents
          mem_ruleUndefinedGeom2dAPIInterpolateClearTangents
          (by simp only [ruleUndefinedGeom2dAPIInterpolateClearTangents]; rw [h1, h2]; decide)
      | exact admit_false_of_rule d ruleUndefinedGeom2dGccLin2dTanOblIsParallel2
          mem_ruleUndefinedGeom2dGccLin2dTanOblIsParallel2
          (by simp only [ruleUndefinedGeom2dGccLin2dTanOblIsParallel2]; rw [h1, h2]; decide)
      | exact admit_false_of_rule d ruleUndefinedGeom2dIntCurveToolIsComposite
          mem_ruleUndefinedGeom2dIntCurveToolIsComposite
          (by simp only [ruleUndefinedGeom2dIntCurveToolIsComposite]; rw [h1, h2]; decide)
      | exact admit_false_of_rule d ruleUndefinedGeom2dIntCurveLocatorLocate
          mem_ruleUndefinedGeom2dIntCurveLocatorLocate
          (by simp only [ruleUndefinedGeom2dIntCurveLocatorLocate]; rw [h1, h2]; decide)
      | exact admit_false_of_rule d ruleUndefinedGeomIntIntSSSetTolFixTangents
          mem_ruleUndefinedGeomIntIntSSSetTolFixTangents
          (by simp only [ruleUndefinedGeomIntIntSSSetTolFixTangents]; rw [h1, h2]; decide)
      | exact admit_false_of_rule d ruleUndefinedGeomIntIntSSTolFixTangents
          mem_ruleUndefinedGeomIntIntSSTolFixTangents
          (by simp only [ruleUndefinedGeomIntIntSSTolFixTangents]; rw [h1, h2]; decide)
      | exact admit_false_of_rule d ruleUndefinedGeomAPIInterpolateClearTangents
          mem_ruleUndefinedGeomAPIInterpolateClearTangents
          (by simp only [ruleUndefinedGeomAPIInterpolateClearTangents]; rw [h1, h2]; decide)
      | exact admit_false_of_rule d ruleUndefinedGeomFillFunctionGuideDeriv2T
          mem_ruleUndefinedGeomFillFunctionGuideDeriv2T
          (by simp only [ruleUndefinedGeomFillFunctionGuideDeriv2T]; rw [h1, h2]; decide)
      | exact admit_false_of_rule d ruleUndefinedGeomFillSweepSectionGeneratorInit
          mem_ruleUndefinedGeomFillSweepSectionGeneratorInit
          (by simp only [ruleUndefinedGeomFillSweepSectionGeneratorInit]; rw [h1, h2]; decide)
      | exact admit_false_of_rule d ruleUndefinedGeomIntResConstraintBezierError
          mem_ruleUndefinedGeomIntResConstraintBezierError
          (by simp only [ruleUndefinedGeomIntResConstraintBezierError]; rw [h1, h2]; decide)
      | exact admit_false_of_rule d ruleUndefinedGeomIntResConstraintbisError
          mem_ruleUndefinedGeomIntResConstraintbisError
          (by simp only [ruleUndefinedGeomIntResConstraintbisError]; rw [h1, h2]; decide)
      | exact admit_false_of_rule d ruleUndefinedGeomIntWLApproxPerform
          mem_ruleUndefinedGeomIntWLApproxPerform
          (by simp only [ruleUndefinedGeomIntWLApproxPerform]; rw [h1, h2]; decide)
  · exact admit_false_of_rule d ruleLerpInterpolateStatic mem_ruleLerpInterpolateStatic
      (by simp only [ruleLerpInterpolateStatic]; rw [h1, h2, h3]; decide)

def c2GetGeomDescriptor : MemberDescriptor :=
  ⟨⟨"MeshVS_DataSource", "MeshVS_DataSource"⟩,
   ⟨"GetGeom", "GetGeom(...)", "Standard_Boolean", "Standard_Boolean (...)",
    AccessSpecifier.PUBLIC, CursorKind.CXX_METHOD, false⟩⟩

def c2IsDoneDescriptor : MemberDescriptor :=
  ⟨⟨"Geom2dHatch_Hatcher", "Geom2dHatch_Hatcher"⟩,
   ⟨"IsDone", "IsDone(int)", "Standard_Boolean", "Standard_Boolean (int)",
    AccessSpecifier.PUBLIC, CursorKind.CXX_METHOD, false⟩⟩

/-- C2 witness: the pairs named by the spec examples, MeshVS_DataSource
GetGeom and Geom2dHatch_Hatcher IsDone, are excluded. -/
theorem claim_C2_exact_pairs_witness :
    admitMember c2GetGeomDescriptor = false ∧ admitMember c2IsDoneDescriptor = false :=
  ⟨claim_C2_exact_pairs c2GetGeomDescriptor (Or.inl (by decide)),
   claim_C2_exact_pairs c2IsDoneDescriptor (Or.inl (by decide))⟩
